import Mathlib

/-!
Verification of the mesido / rtctools_heat_network component-modelling core.

We shallowly embed the component library's symbolic-equation layer:
equations emitted by a component are syntax trees (`Expr`) over a finite
set of variable names, evaluated over ℝ.  Python floats are modelled by
real numbers; `x ** 0.5` on a nonnegative float is modelled by
`Real.sqrt`.  Component parameters supplied by modifiers (diameter,
length, ...) are explicit arguments of the definitions.
-/

namespace Mesido

/-- Symbolic algebraic expression over variable names `V`, mirroring the
expressions built by the pycml layer (`self.GasIn.Q - self.GasOut.Q`, ...).
Constants are real numbers (Python floats). -/
inductive Expr (V : Type) where
  | var : V → Expr V
  | const : ℝ → Expr V
  | add : Expr V → Expr V → Expr V
  | sub : Expr V → Expr V → Expr V
  | mul : Expr V → Expr V → Expr V
  | div : Expr V → Expr V → Expr V

namespace Expr

/-- Evaluate an expression under an assignment of the variables. -/
noncomputable def eval (σ : V → ℝ) : Expr V → ℝ
  | var v => σ v
  | const c => c
  | add a b => a.eval σ + b.eval σ
  | sub a b => a.eval σ - b.eval σ
  | mul a b => a.eval σ * b.eval σ
  | div a b => a.eval σ / b.eval σ

/-- An emitted equation is "normalized by a nominal scale" when its top
level is a division by a constant (the nominal), as in
`(self.GasIn.Q - self.GasOut.Q) / self.Q_nominal`. -/
def isNormalizedByNominal : Expr V → Bool
  | div _ (const _) => true
  | _ => false

/-- Whether the expression references the variable `v`. -/
def mentions [DecidableEq V] (v : V) : Expr V → Bool
  | var w => decide (v = w)
  | const _ => false
  | add a b => a.mentions v || b.mentions v
  | sub a b => a.mentions v || b.mentions v
  | mul a b => a.mentions v || b.mentions v
  | div a b => a.mentions v || b.mentions v

end Expr

/-- A pycml `Variable` as declared by `add_variable`: a name together with
the nominal and optional bounds.  `none` bounds model the absent / infinite
default.  The nominal default of `1.0` follows the spec's data model for the
pycml base (the base class itself is not part of the shown sources). -/
structure ModelVariable (V : Type) where
  name : V
  nominal : ℝ
  min : Option ℝ
  max : Option ℝ

/-! ## The gas pipe component (mesido/pycml/component_library/milp/gas/gas_pipe.py) -/

namespace GasPipe

/-- The variables referenced by the gas pipe's own equations: its two gas
ports' variables (`GasIn`/`GasOut`, each exposing `Q`, `mass_flow`,
`Hydraulic_power`, `Q_shadow`) and the pipe's own `Q`, `dH` and
`Hydraulic_power`. -/
inductive GVar where
  | gasInQ
  | gasOutQ
  | gasInMassFlow
  | gasOutMassFlow
  | gasInQShadow
  | gasOutQShadow
  | gasInHydraulicPower
  | gasOutHydraulicPower
  | q
  | dH
  | hydraulicPower
deriving DecidableEq

/-- `self.v_max = 15.0` -/
def v_max : ℝ := 15.0

/-- `self.density = 2.5e3  # [g/m3]` -/
def density : ℝ := 2.5e3

/-- `self.rho = self.density` -/
def rho : ℝ := density

/-- `self.area = 0.25 * pi * self.diameter**2`; the diameter itself
defaults to NaN and is supplied by a modifier, so it is a parameter here. -/
noncomputable def area (diameter : ℝ) : ℝ := 0.25 * Real.pi * diameter ^ 2

/-- `self.Q_nominal = self.v_max / 2.0 * self.area` -/
noncomputable def Q_nominal (diameter : ℝ) : ℝ := v_max / 2.0 * area diameter

/-- `self.pressure = 16.0e5` -/
def pressure : ℝ := 16.0e5

/-- `self.nominal_head = 30.0` -/
def nominal_head : ℝ := 30.0

/-- `self.r = 1.0e-6 * self.length  # TODO: temporary value`; the length
defaults to NaN and is supplied by a modifier, so it is a parameter here. -/
def r (length : ℝ) : ℝ := 1.0e-6 * length

/-- `ff = 0.02`, the fixed placeholder friction factor. -/
def ff : ℝ := 0.02

/-- `velo = self.Q_nominal / self.area` -/
noncomputable def velo (diameter : ℝ) : ℝ := Q_nominal diameter / area diameter

/-- `self.Hydraulic_power_nominal =
      self.rho * ff * max(self.length, 1.0) * pi * self.area / self.diameter / 2.0 * velo**3` -/
noncomputable def Hydraulic_power_nominal (diameter length : ℝ) : ℝ :=
  rho * ff * max length 1.0 * Real.pi * area diameter / diameter / 2.0 * velo diameter ^ 3

/-- The variables the gas pipe itself declares via `add_variable`, in
source order: `dH` (nominal `Q_nominal * r`), `Q` (nominal `Q_nominal`),
`Hydraulic_power` (min `0.0`, nominal `Hydraulic_power_nominal`). -/
noncomputable def declaredVariables (diameter length : ℝ) : List (ModelVariable GVar) :=
  [ ⟨GVar.dH, Q_nominal diameter * r length, none, none⟩,
    ⟨GVar.q, Q_nominal diameter, none, none⟩,
    ⟨GVar.hydraulicPower, Hydraulic_power_nominal diameter length, some 0.0, none⟩ ]

/-- `self.add_equation(((self.GasOut.Q_shadow - (self.GasIn.Q_shadow - 1.0e-3))))` -/
noncomputable def shadowEquation : Expr GVar :=
  Expr.sub (Expr.var GVar.gasOutQShadow)
    (Expr.sub (Expr.var GVar.gasInQShadow) (Expr.const 1.0e-3))

/-- The hydraulic-power balance equation:
`(self.Hydraulic_power - (self.GasIn.Hydraulic_power - self.GasOut.Hydraulic_power))
   / (self.pressure * self.Q_nominal * self.Hydraulic_power_nominal) ** 0.5`. -/
noncomputable def hydraulicEquation (diameter length : ℝ) : Expr GVar :=
  Expr.div
    (Expr.sub (Expr.var GVar.hydraulicPower)
      (Expr.sub (Expr.var GVar.gasInHydraulicPower) (Expr.var GVar.gasOutHydraulicPower)))
    (Expr.const
      (Real.sqrt (pressure * Q_nominal diameter * Hydraulic_power_nominal diameter length)))

/-- The six equations emitted by `GasPipe.__init__`, in source order. -/
noncomputable def equations (diameter length : ℝ) : List (Expr GVar) :=
  [ Expr.div (Expr.sub (Expr.var GVar.gasInQ) (Expr.var GVar.gasOutQ))
      (Expr.const (Q_nominal diameter)),
    Expr.div (Expr.sub (Expr.var GVar.q) (Expr.var GVar.gasOutQ))
      (Expr.const (Q_nominal diameter)),
    Expr.div
      (Expr.sub (Expr.var GVar.gasInQ)
        (Expr.div (Expr.var GVar.gasInMassFlow) (Expr.const density)))
      (Expr.const (Q_nominal diameter)),
    Expr.div (Expr.sub (Expr.var GVar.gasInMassFlow) (Expr.var GVar.gasOutMassFlow))
      (Expr.const (Q_nominal diameter * density)),
    shadowEquation,
    hydraulicEquation diameter length ]

end GasPipe

/-! ## The thermal QTH pipe (rtctools_heat_network/pycml/component_library/qth/pipe.py) -/

namespace QthPipe

/-- Variables relevant to the QTH pipe's equations: the two QTH ports'
flow variables, the ports' temperature variables (referenced only by the
heat-loss equation that the source delegates to an external assembly
step), and the pipe's own `Q` and `dH`. -/
inductive QVar where
  | qthInQ
  | qthOutQ
  | qthInT
  | qthOutT
  | q
  | dH
deriving DecidableEq

/-- `self.length = 1.0` -/
def length : ℝ := 1.0

/-- `self.diameter = 1.0` -/
def diameter : ℝ := 1.0

/-- `self.cp = 4200.0` -/
def cp : ℝ := 4200.0

/-- `self.rho = 988.0` -/
def rho : ℝ := 988.0

/-- `self.T_ground = 10.0` -/
def T_ground : ℝ := 10.0

/-- The variables `Pipe.__init__` declares via `add_variable`, in source
order: `Q` with all defaults, and `dH` with `max=0.0`.  The nominal
default of `1.0` follows the spec's data model for the pycml base. -/
def declaredVariables : List (ModelVariable QVar) :=
  [ ⟨QVar.q, 1.0, none, none⟩,
    ⟨QVar.dH, 1.0, none, some 0.0⟩ ]

/-- The two equations emitted by `Pipe.__init__`, in source order:
`self.QTHIn.Q - self.Q` and `self.QTHOut.Q - self.QTHIn.Q`.  The heat-loss
equation is only a comment in the source ("added in the Python script to
allow pipes to be disconnected"). -/
def equations : List (Expr QVar) :=
  [ Expr.sub (Expr.var QVar.qthInQ) (Expr.var QVar.q),
    Expr.sub (Expr.var QVar.qthOutQ) (Expr.var QVar.qthInQ) ]

end QthPipe

/-- An equation `(a - b) / c = 0` with nonzero denominator forces `a = b`. -/
lemma div_sub_eq_zero {a b c : ℝ} (hc : c ≠ 0) (h : (a - b) / c = 0) : a = b := by
  rcases div_eq_zero_iff.mp h with h' | h'
  · exact sub_eq_zero.mp h'
  · exact absurd h' hc

/-- `Q_nominal` is strictly positive for a positive diameter. -/
lemma Q_nominal_pos {d : ℝ} (hd : 0 < d) : 0 < GasPipe.Q_nominal d := by
  rw [GasPipe.Q_nominal, GasPipe.area, GasPipe.v_max]
  positivity

/-- C1: the gas pipe's emitted equation set enforces flow conservation:
`GasIn.Q = GasOut.Q`, the pipe's own `Q` equals the outlet flow,
`GasIn.Q = GasIn.mass_flow / density`, and `GasIn.mass_flow = GasOut.mass_flow`;
hence asserting `GasIn.Q = X` together with the emitted equations forces
`GasOut.Q = X` (and `Q = X`) by symbolic substitution, whenever the
normalizing `Q_nominal` is nonzero. -/
theorem gasPipe_flow_conservation (diameter length X : ℝ) (σ : GasPipe.GVar → ℝ)
    (hQn : GasPipe.Q_nominal diameter ≠ 0)
    (hsat : ∀ e ∈ GasPipe.equations diameter length, e.eval σ = 0)
    (hin : σ GasPipe.GVar.gasInQ = X) :
    σ GasPipe.GVar.gasOutQ = X ∧ σ GasPipe.GVar.q = X ∧
    σ GasPipe.GVar.gasInQ = σ GasPipe.GVar.gasInMassFlow / GasPipe.density ∧
    σ GasPipe.GVar.gasInMassFlow = σ GasPipe.GVar.gasOutMassFlow := by
  rw [GasPipe.equations, List.forall_mem_cons, List.forall_mem_cons, List.forall_mem_cons,
    List.forall_mem_cons, List.forall_mem_cons, List.forall_mem_singleton] at hsat
  obtain ⟨h1, h2, h3, h4, -, -⟩ := hsat
  simp only [Expr.eval] at h1 h2 h3 h4
  have hd : GasPipe.density ≠ 0 := by rw [GasPipe.density]; norm_num
  have e1 := div_sub_eq_zero hQn h1
  have e2 := div_sub_eq_zero hQn h2
  have e3 := div_sub_eq_zero hQn h3
  have e4 := div_sub_eq_zero (mul_ne_zero hQn hd) h4
  exact ⟨e1 ▸ hin, by rw [e2, ← e1, hin], e3, e4⟩

/-- A concrete satisfying assignment used to witness the flow-conservation
theorems: all flows zero, with the inlet shadow variable offset so that the
shadow equation holds. -/
noncomputable def witnessAssignment : GasPipe.GVar → ℝ
  | GasPipe.GVar.gasInQShadow => 1.0e-3
  | _ => 0

/-- The witness assignment satisfies every emitted gas-pipe equation at
diameter 1, length 1. -/
lemma witnessAssignment_sat :
    ∀ e ∈ GasPipe.equations 1 1, e.eval witnessAssignment = 0 := by
  intro e he
  fin_cases he <;>
    simp [Expr.eval, witnessAssignment, GasPipe.shadowEquation, GasPipe.hydraulicEquation]

/-- Witness for C1 at diameter 1, length 1, inflow 0. -/
theorem gasPipe_flow_conservation_witness :
    witnessAssignment GasPipe.GVar.gasOutQ = 0 ∧ witnessAssignment GasPipe.GVar.q = 0 := by
  have h := gasPipe_flow_conservation 1 1 0 witnessAssignment
    (ne_of_gt (Q_nominal_pos one_pos)) witnessAssignment_sat rfl
  exact ⟨h.1, h.2.1⟩

/-- The gas pipe's cross-section area is positive for a positive diameter. -/
lemma area_pos {d : ℝ} (hd : 0 < d) : 0 < GasPipe.area d := by
  rw [GasPipe.area]
  positivity

/-- The gas pipe's nominal hydraulic power is positive for a positive
diameter (any length, thanks to `max(length, 1.0)`). -/
lemma Hydraulic_power_nominal_pos {d l : ℝ} (hd : 0 < d) :
    0 < GasPipe.Hydraulic_power_nominal d l := by
  have ha := area_pos hd
  have hv : 0 < GasPipe.velo d := div_pos (Q_nominal_pos hd) ha
  have hm : (0 : ℝ) < max l 1.0 := lt_max_of_lt_right (by norm_num)
  have h1 : 0 < GasPipe.rho * GasPipe.ff := by
    rw [GasPipe.rho, GasPipe.density, GasPipe.ff]
    norm_num
  rw [GasPipe.Hydraulic_power_nominal]
  exact mul_pos
    (div_pos (div_pos (mul_pos (mul_pos (mul_pos h1 hm) Real.pi_pos) ha) hd) (by norm_num))
    (pow_pos hv 3)

/-- C2: every variable declared by the components has a finite, strictly
positive resolved nominal.  The gas pipe's nominals (`Q`, `dH`,
`Hydraulic_power`) are derived from the modifier-supplied diameter and
length, so positivity of those parameters is assumed; the QTH pipe's
variables carry the default nominal `1.0`.  (In the real-valued model
every value is finite.) -/
theorem component_nominals_positive (diameter length : ℝ)
    (hd : 0 < diameter) (hl : 0 < length) :
    (∀ v ∈ GasPipe.declaredVariables diameter length, 0 < v.nominal) ∧
    (∀ v ∈ QthPipe.declaredVariables, 0 < v.nominal) := by
  constructor
  · intro v hv
    fin_cases hv
    · exact mul_pos (Q_nominal_pos hd) (mul_pos (by norm_num) hl)
    · exact Q_nominal_pos hd
    · exact Hydraulic_power_nominal_pos hd
  · intro v hv
    fin_cases hv <;> norm_num

/-- Witness for C2: the gas pipe's `dH` nominal at diameter 1, length 1
is positive. -/
theorem component_nominals_positive_witness :
    0 < GasPipe.Q_nominal 1 * GasPipe.r 1 :=
  (component_nominals_positive 1 1 one_pos one_pos).1
    ⟨GasPipe.GVar.dH, GasPipe.Q_nominal 1 * GasPipe.r 1, none, none⟩
    (List.mem_cons_self _ _)

/-- C3 counterexample: not every emitted equation is normalized by a
nominal scale: the gas pipe's shadow equation (an emitted equation of the
gas pipe at diameter 1, length 1) has no normalizing division, and neither
of the QTH pipe's two flow equations has one. -/
theorem normalization_counterexample :
    GasPipe.shadowEquation ∈ GasPipe.equations 1 1 ∧
    GasPipe.shadowEquation.isNormalizedByNominal = false ∧
    QthPipe.equations.map Expr.isNormalizedByNominal = [false, false] :=
  ⟨by rw [GasPipe.equations]; simp, rfl, rfl⟩

/-- C3 amended: the gas pipe's emitted equations are each normalized by
dividing through a nominal scale, except the shadow equation, which is
emitted unnormalized; the QTH pipe's two flow equations are also emitted
unnormalized. -/
theorem normalization_amended (diameter length : ℝ) :
    (GasPipe.equations diameter length).map Expr.isNormalizedByNominal =
      [true, true, true, true, false, true] ∧
    QthPipe.equations.map Expr.isNormalizedByNominal = [false, false] :=
  ⟨rfl, rfl⟩

/-- C9: the QTH pipe declares an internal flow variable `Q` and a head-loss
variable `dH` bounded above by 0; its emitted equations hold exactly when
`QTHIn.Q = Q` and `QTHOut.Q = QTHIn.Q`; and no emitted equation mentions a
port temperature variable — the heat-loss energy balance is delegated to an
external assembly step. -/
theorem qthPipe_flow_and_delegation :
    (∃ v ∈ QthPipe.declaredVariables, v.name = QthPipe.QVar.dH ∧ v.max = some 0.0) ∧
    (∃ v ∈ QthPipe.declaredVariables, v.name = QthPipe.QVar.q) ∧
    (∀ σ : QthPipe.QVar → ℝ,
      (∀ e ∈ QthPipe.equations, e.eval σ = 0) ↔
        σ QthPipe.QVar.qthInQ = σ QthPipe.QVar.q ∧
        σ QthPipe.QVar.qthOutQ = σ QthPipe.QVar.qthInQ) ∧
    (∀ e ∈ QthPipe.equations,
      e.mentions QthPipe.QVar.qthInT = false ∧ e.mentions QthPipe.QVar.qthOutT = false) := by
  refine ⟨⟨⟨QthPipe.QVar.dH, 1.0, none, some 0.0⟩,
      List.mem_cons_of_mem _ (List.mem_cons_self _ _), rfl, rfl⟩,
    ⟨⟨QthPipe.QVar.q, 1.0, none, none⟩, List.mem_cons_self _ _, rfl⟩, ?_, by decide⟩
  intro σ
  constructor
  · intro h
    have h1 := h _ (List.mem_cons_self _ _)
    have h2 := h _ (List.mem_cons_of_mem _ (List.mem_cons_self _ _))
    simp only [Expr.eval] at h1 h2
    exact ⟨sub_eq_zero.mp h1, sub_eq_zero.mp h2⟩
  · rintro ⟨h1, h2⟩ e he
    fin_cases he
    · simpa [Expr.eval] using sub_eq_zero_of_eq h1
    · simpa [Expr.eval] using sub_eq_zero_of_eq h2

/-- C4: the gas pipe's hydraulic-power balance equation is emitted among its
equations; its nominal hydraulic power equals the placeholder formula
`rho * 0.02 * max(length, 1.0) * pi * area / diameter / 2.0 * (Q_nominal/area)^3`
(friction factor fixed at `0.02`, velocity `Q_nominal / area`); and whenever
the normalization constant `pressure * Q_nominal * Hydraulic_power_nominal`
is positive, the equation holds exactly when
`Hydraulic_power = GasIn.Hydraulic_power - GasOut.Hydraulic_power`. -/
theorem gasPipe_hydraulic_power_balance (diameter length : ℝ) :
    GasPipe.hydraulicEquation diameter length ∈ GasPipe.equations diameter length ∧
    GasPipe.Hydraulic_power_nominal diameter length =
      GasPipe.density * 0.02 * max length 1.0 * Real.pi * GasPipe.area diameter
        / diameter / 2.0 * (GasPipe.Q_nominal diameter / GasPipe.area diameter) ^ 3 ∧
    ∀ σ : GasPipe.GVar → ℝ,
      0 < GasPipe.pressure * GasPipe.Q_nominal diameter
          * GasPipe.Hydraulic_power_nominal diameter length →
      ((GasPipe.hydraulicEquation diameter length).eval σ = 0 ↔
        σ GasPipe.GVar.hydraulicPower =
          σ GasPipe.GVar.gasInHydraulicPower - σ GasPipe.GVar.gasOutHydraulicPower) := by
  refine ⟨by rw [GasPipe.equations]; simp, rfl, ?_⟩
  intro σ hpos
  have hs : Real.sqrt (GasPipe.pressure * GasPipe.Q_nominal diameter
      * GasPipe.Hydraulic_power_nominal diameter length) ≠ 0 :=
    ne_of_gt (Real.sqrt_pos.mpr hpos)
  rw [GasPipe.hydraulicEquation]
  simp only [Expr.eval]
  rw [div_eq_zero_iff]
  constructor
  · rintro (h | h)
    · exact sub_eq_zero.mp h
    · exact absurd h hs
  · intro h
    exact Or.inl (sub_eq_zero_of_eq h)

/-- Witness for C4 at diameter 1, length 1 with the all-zero hydraulic
powers of the witness assignment. -/
theorem gasPipe_hydraulic_power_balance_witness :
    (GasPipe.hydraulicEquation 1 1).eval witnessAssignment = 0 :=
  ((gasPipe_hydraulic_power_balance 1 1).2.2 witnessAssignment
    (mul_pos
      (mul_pos (by rw [GasPipe.pressure]; norm_num) (Q_nominal_pos one_pos))
      (Hydraulic_power_nominal_pos one_pos))).mpr
    (by norm_num [witnessAssignment])

/-- C5: exactly one of the gas pipe's emitted equations mentions the ports'
`Q_shadow` variables; the shadow equation is among the emitted equations and
holds exactly when `GasOut.Q_shadow = GasIn.Q_shadow - 1.0e-3`, the offset
being exactly `1.0e-3`. -/
theorem gasPipe_shadow_equation_offset (diameter length : ℝ) :
    (GasPipe.equations diameter length).countP
      (fun e => e.mentions GasPipe.GVar.gasInQShadow
        || e.mentions GasPipe.GVar.gasOutQShadow) = 1 ∧
    GasPipe.shadowEquation ∈ GasPipe.equations diameter length ∧
    ∀ σ : GasPipe.GVar → ℝ,
      GasPipe.shadowEquation.eval σ = 0 ↔
        σ GasPipe.GVar.gasOutQShadow = σ GasPipe.GVar.gasInQShadow - 1.0e-3 := by
  refine ⟨rfl, by rw [GasPipe.equations]; simp, ?_⟩
  intro σ
  rw [GasPipe.shadowEquation]
  simp only [Expr.eval]
  exact sub_eq_zero

/-- Witness for C5: the witness assignment satisfies the shadow equation. -/
theorem gasPipe_shadow_equation_offset_witness :
    GasPipe.shadowEquation.eval witnessAssignment = 0 :=
  ((gasPipe_shadow_equation_offset 1 1).2.2 witnessAssignment).mpr
    (by norm_num [witnessAssignment])

/-- C7: the gas pipe's geometry derivation: the area is computed as
`0.25 * pi * diameter^2` and the nominal flow as `v_max / 2 * area`, both
pure functions of the modifier-supplied diameter (so the parameter is
resolved strictly before the quantities derived from it); at
`diameter = 0.1` with the default `v_max = 15.0`, `area = pi/4 * 0.01`
exactly (hence within tolerance `1e-9`), and `Q_nominal = v_max/2 * area`
exactly (hence within tolerance `1e-9`). -/
theorem gasPipe_geometry_derivation :
    (∀ d : ℝ, GasPipe.area d = 0.25 * Real.pi * d ^ 2 ∧
      GasPipe.Q_nominal d = GasPipe.v_max / 2.0 * GasPipe.area d) ∧
    GasPipe.v_max = 15.0 ∧
    GasPipe.area 0.1 = Real.pi / 4 * 0.01 ∧
    |GasPipe.area 0.1 - Real.pi / 4 * 0.01| ≤ 1e-9 ∧
    |GasPipe.Q_nominal 0.1 - GasPipe.v_max / 2.0 * GasPipe.area 0.1| ≤ 1e-9 := by
  have h : GasPipe.area 0.1 = Real.pi / 4 * 0.01 := by
    rw [GasPipe.area]
    ring
  refine ⟨fun d => ⟨rfl, rfl⟩, rfl, h, ?_, ?_⟩
  · rw [h, sub_self, abs_zero]
    norm_num
  · show |GasPipe.Q_nominal 0.1 - GasPipe.Q_nominal 0.1| ≤ 1e-9
    rw [sub_self, abs_zero]
    norm_num

/-! ## The ESDL asset-to-component converter
(rtctools_heat_network/esdl/esdl_heat_model.py, class AssetToHeatComponent) -/

namespace EsdlHeat

/-- Python exception kinds the conversion rules can raise: `assert`
statements raise `AssertionError`; a failed dictionary lookup raises
`KeyError`; `ConfigurationError` is the error class named by the project's
documentation. -/
inductive PyError where
  | assertionError
  | keyError
  | configurationError
deriving DecidableEq

/-- ESDL port kinds (`esdl.esdl.InPort` / `esdl.esdl.OutPort`). -/
inductive PortKind where
  | inPort
  | outPort
deriving DecidableEq

/-- One ESDL port of an asset: its kind and `len(x.connectedTo)`. -/
structure EsdlPort where
  kind : PortKind
  connectedTo : Nat

/-- The slice of an ESDL `Asset` record that the shown conversion rules
read.  `material` models `attributes["material"]`: `none` when absent, and
otherwise the compound-matter layers as `(layerWidth, thermalConductivity)`
pairs.  `connectedPipe` abstracts the port topology used by the
`_get_connected_q_nominal` helper: the id of the pipe asset connected to
this asset. -/
structure Asset where
  id : String
  name : String
  asset_type : String
  power : ℝ
  capacity : ℝ
  innerDiameter : ℝ
  length : ℝ
  material : Option (List (ℝ × ℝ))
  ports : List EsdlPort
  connectedPipe : String

/-- The component types returned by the conversion rules. -/
inductive HeatComponentType where
  | buffer
  | demand
  | node
  | pipe
  | pump
  | source
deriving DecidableEq

/-- `AssetToHeatComponent.__init__(..., v_nominal=1.0, v_max=5.0,
rho=988.0, cp=4200.0)`. -/
structure HeatConverter where
  v_nominal : ℝ
  v_max : ℝ
  rho : ℝ
  cp : ℝ

/-- The converter with its default construction parameters. -/
noncomputable def defaultConverter : HeatConverter := ⟨1.0, 5.0, 988.0, 4200.0⟩

/-- Modelled from the spec: the `_AssetToComponentBase` helpers
`_set_q_nominal` / `_get_connected_q_nominal` are not among the shown
sources; per the spec's converter contract they record a pipe's derived
nominal flow and look up the recorded value of the pipe connected to an
asset.  We model the converter state as an association list from pipe asset
id to its recorded `q_nominal`. -/
def ConvState := List (String × ℝ)

/-- `self._set_q_nominal(asset, q_nominal)` (modelled from the spec). -/
def setQNominal (s : ConvState) (assetId : String) (q : ℝ) : ConvState :=
  (assetId, q) :: s

/-- `self._get_connected_q_nominal(asset)` (modelled from the spec):
look up the recorded `q_nominal` of the pipe connected to `a`;
`none` models the `KeyError` raised when the pipe was not converted yet. -/
def getConnectedQNominal (s : ConvState) (a : Asset) : Option ℝ :=
  List.lookup a.connectedPipe s

/-- The modifier mapping built by `convert_demand`.  The supply/return
temperatures stand for `_supply_return_temperature_modifiers` (external
temperature provider), `rho`/`cp` for `_rho_cp_modifiers`. -/
structure DemandModifiers where
  Q_nominal : ℝ
  Heat_demand_max : ℝ
  supply_temperature : ℝ
  return_temperature : ℝ
  rho : ℝ
  cp : ℝ

/-- `AssetToHeatComponent.convert_demand`: asserts the asset type is
`GenericConsumer` or `HeatingDemand`, asserts `power > 0`, then builds
the modifier mapping, looking up the connected pipe's `q_nominal`. -/
noncomputable def convert_demand (c : HeatConverter) (s : ConvState) (a : Asset)
    (Tsup Tret : ℝ) : Except PyError (HeatComponentType × DemandModifiers) :=
  if a.asset_type = "GenericConsumer" ∨ a.asset_type = "HeatingDemand" then
    if 0 < a.power then
      match getConnectedQNominal s a with
      | some q =>
        Except.ok (HeatComponentType.demand, ⟨q, a.power, Tsup, Tret, c.rho, c.cp⟩)
      | none => Except.error PyError.keyError
    else Except.error PyError.assertionError
  else Except.error PyError.assertionError

/-- The modifier mapping built by `convert_buffer`. -/
structure BufferModifiers where
  Q_nominal : ℝ
  Stored_heat_min : ℝ
  Stored_heat_max : ℝ
  init_Heat : ℝ
  rho : ℝ
  cp : ℝ

/-- `AssetToHeatComponent.convert_buffer`: asserts the asset type is
`HeatStorage`, asserts `capacity > 0`, then builds the modifiers. -/
noncomputable def convert_buffer (c : HeatConverter) (s : ConvState) (a : Asset) :
    Except PyError (HeatComponentType × BufferModifiers) :=
  if a.asset_type = "HeatStorage" then
    if 0 < a.capacity then
      match getConnectedQNominal s a with
      | some q =>
        Except.ok (HeatComponentType.buffer, ⟨q, 0.0, a.capacity, 0.0, c.rho, c.cp⟩)
      | none => Except.error PyError.keyError
    else Except.error PyError.assertionError
  else Except.error PyError.assertionError

/-- The modifier mapping built by `convert_node`. -/
structure NodeModifiers where
  n : Nat

/-- `AssetToHeatComponent.convert_node`: asserts the asset type is `Joint`,
sums `len(connectedTo)` over the `InPort`s and over the `OutPort`s, and
returns `Node` with `n = sum_in + sum_out`. -/
def convert_node (a : Asset) : Except PyError (HeatComponentType × NodeModifiers) :=
  if a.asset_type = "Joint" then
    let sum_in :=
      ((a.ports.filter (fun p => p.kind = PortKind.inPort)).map EsdlPort.connectedTo).sum
    let sum_out :=
      ((a.ports.filter (fun p => p.kind = PortKind.outPort)).map EsdlPort.connectedTo).sum
    Except.ok (HeatComponentType.node, ⟨sum_in + sum_out⟩)
  else Except.error PyError.assertionError

/-- Per-port bound/nominal overrides built by `convert_pipe` for `HeatIn`
and `HeatOut`. -/
structure HeatPortModifiers where
  Heat_min : ℝ
  Heat_max : ℝ
  Heat_nominal : ℝ
  Q_min : ℝ
  Q_max : ℝ

/-- The modifier mapping built by `convert_pipe`.  `none` for the
insulation lists models the NaN "use library defaults" sentinel. -/
structure PipeModifiers where
  Q_nominal : ℝ
  length : ℝ
  diameter : ℝ
  temperature : ℝ
  HeatIn : HeatPortModifiers
  HeatOut : HeatPortModifiers
  insulation_thickness : Option (List ℝ)
  conductivity_insulation : Option (List ℝ)
  supply_temperature : ℝ
  return_temperature : ℝ
  rho : ℝ
  cp : ℝ

/-- The `"_ret" in asset.attributes["name"]` substring test. -/
def containsRet (s : String) : Bool :=
  decide (1 < (s.splitOn "_ret").length)

/-- `AssetToHeatComponent.convert_pipe`: asserts the asset type is `Pipe`,
selects the return temperature when the name contains `"_ret"`, derives
`area = pi * innerDiameter^2 / 4`, `q_max = area * v_max`,
`q_nominal = area * v_nominal`, records `q_nominal` in the converter state
(before the `hfr_max > 0` assert, as in the source), derives the heat
flow-rate bounds, asserts `hfr_max > 0`, resolves the insulation layers,
and builds the modifiers.  Returns the updated state next to the result. -/
noncomputable def convert_pipe (c : HeatConverter) (s : ConvState) (a : Asset)
    (Tsup Tret : ℝ) :
    ConvState × Except PyError (HeatComponentType × PipeModifiers) :=
  if a.asset_type = "Pipe" then
    let temperature := if containsRet a.name then Tret else Tsup
    let diameter := a.innerDiameter
    let area := Real.pi * a.innerDiameter ^ 2 / 4.0
    let q_max := area * c.v_max
    let q_nominal := area * c.v_nominal
    let s' := setQNominal s a.id q_nominal
    let delta_temperature := Tsup - Tret
    let hfr_nominal := c.rho * c.cp * q_nominal * delta_temperature
    let hfr_max := c.rho * c.cp * q_max * delta_temperature * 2
    (s',
      if 0 < hfr_max then
        let insulation : Option (List ℝ) × Option (List ℝ) :=
          match a.material with
          | none => (none, none)
          | some [] => (none, none)
          | some layers => (some (layers.map Prod.fst), some (layers.map Prod.snd))
        Except.ok (HeatComponentType.pipe,
          ⟨q_nominal, a.length, diameter, temperature,
            ⟨-hfr_max, hfr_max, hfr_nominal, -q_max, q_max⟩,
            ⟨-hfr_max, hfr_max, hfr_nominal, -q_max, q_max⟩,
            insulation.1, insulation.2, Tsup, Tret, c.rho, c.cp⟩)
      else Except.error PyError.assertionError)
  else (s, Except.error PyError.assertionError)

/-- The modifier mapping built by `convert_pump`. -/
structure PumpModifiers where
  Q_nominal : ℝ
  supply_temperature : ℝ
  return_temperature : ℝ
  rho : ℝ
  cp : ℝ

/-- `AssetToHeatComponent.convert_pump`: asserts the asset type is `Pump`
and builds the modifiers from the connected pipe's recorded `q_nominal`. -/
noncomputable def convert_pump (c : HeatConverter) (s : ConvState) (a : Asset)
    (Tsup Tret : ℝ) : Except PyError (HeatComponentType × PumpModifiers) :=
  if a.asset_type = "Pump" then
    match getConnectedQNominal s a with
    | some q => Except.ok (HeatComponentType.pump, ⟨q, Tsup, Tret, c.rho, c.cp⟩)
    | none => Except.error PyError.keyError
  else Except.error PyError.assertionError

/-- The modifier mapping built by `convert_source`. -/
structure SourceModifiers where
  Q_nominal : ℝ
  Heat_source_min : ℝ
  Heat_source_max : ℝ
  Heat_source_nominal : ℝ
  supply_temperature : ℝ
  return_temperature : ℝ
  rho : ℝ
  cp : ℝ

/-- `AssetToHeatComponent.convert_source`: asserts the asset type is one of
the four producer types, asserts `power > 0`, and builds the modifiers. -/
noncomputable def convert_source (c : HeatConverter) (s : ConvState) (a : Asset)
    (Tsup Tret : ℝ) : Except PyError (HeatComponentType × SourceModifiers) :=
  if a.asset_type = "GasHeater" ∨ a.asset_type = "GenericProducer"
      ∨ a.asset_type = "GeothermalSource" ∨ a.asset_type = "ResidualHeatSource" then
    if 0 < a.power then
      match getConnectedQNominal s a with
      | some q =>
        Except.ok (HeatComponentType.source,
          ⟨q, 0.0, a.power, a.power / 2.0, Tsup, Tret, c.rho, c.cp⟩)
      | none => Except.error PyError.keyError
    else Except.error PyError.assertionError
  else Except.error PyError.assertionError

end EsdlHeat

/-- A demand asset with `power = 0`, used to exhibit the error type of the
converter's positivity check. -/
noncomputable def demandAssetZero : EsdlHeat.Asset :=
  ⟨"d1", "demand1", "HeatingDemand", 0.0, 0.0, 0.0, 0.0, none, [], "p1"⟩

/-- C6 counterexample: converting a demand asset with `power = 0` fails
with `AssertionError` (the error a Python `assert` raises), which is a
different exception type than `ConfigurationError`. -/
theorem convert_demand_error_type_counterexample :
    EsdlHeat.convert_demand EsdlHeat.defaultConverter [] demandAssetZero 80.0 40.0
      = Except.error EsdlHeat.PyError.assertionError ∧
    EsdlHeat.PyError.assertionError ≠ EsdlHeat.PyError.configurationError := by
  constructor
  · have ht : demandAssetZero.asset_type = "GenericConsumer"
        ∨ demandAssetZero.asset_type = "HeatingDemand" := Or.inr rfl
    rw [EsdlHeat.convert_demand, if_pos ht, if_neg]
    simp only [demandAssetZero]
    norm_num
  · intro h
    exact EsdlHeat.PyError.noConfusion h

/-- C6 amended: the converter's positivity checks on required magnitudes
are Python `assert`s, fatal with `AssertionError` (not `ConfigurationError`
and never a silent default): a demand asset with non-positive `power`
errors, a storage asset with non-positive `capacity` errors, and a pipe
asset whose derived `hfr_max` is non-positive errors; a demand asset with
`power = 100.0` (whose connected pipe was already converted) succeeds and
yields `Heat_demand.max == 100.0`. -/
theorem converter_positivity_asserts (c : EsdlHeat.HeatConverter)
    (s : EsdlHeat.ConvState) (a : EsdlHeat.Asset) (Tsup Tret : ℝ) :
    ((a.asset_type = "GenericConsumer" ∨ a.asset_type = "HeatingDemand") →
      a.power ≤ 0 →
      EsdlHeat.convert_demand c s a Tsup Tret
        = Except.error EsdlHeat.PyError.assertionError) ∧
    ((a.asset_type = "GenericConsumer" ∨ a.asset_type = "HeatingDemand") →
      a.power = 100.0 → ∀ q, EsdlHeat.getConnectedQNominal s a = some q →
      EsdlHeat.convert_demand c s a Tsup Tret
        = Except.ok (EsdlHeat.HeatComponentType.demand,
            ⟨q, 100.0, Tsup, Tret, c.rho, c.cp⟩)) ∧
    (a.asset_type = "HeatStorage" → a.capacity ≤ 0 →
      EsdlHeat.convert_buffer c s a = Except.error EsdlHeat.PyError.assertionError) ∧
    (a.asset_type = "Pipe" →
      c.rho * c.cp * (Real.pi * a.innerDiameter ^ 2 / 4.0 * c.v_max) * (Tsup - Tret) * 2
        ≤ 0 →
      (EsdlHeat.convert_pipe c s a Tsup Tret).2
        = Except.error EsdlHeat.PyError.assertionError) := by
  refine ⟨?_, ?_, ?_, ?_⟩
  · intro ht hp
    rw [EsdlHeat.convert_demand, if_pos ht, if_neg (not_lt.mpr hp)]
  · intro ht hp q hq
    rw [EsdlHeat.convert_demand, if_pos ht, if_pos (by rw [hp]; norm_num), hq, hp]
  · intro ht hc
    rw [EsdlHeat.convert_buffer, if_pos ht, if_neg (not_lt.mpr hc)]
  · intro ht hmax
    rw [EsdlHeat.convert_pipe, if_pos ht]
    simp only
    rw [if_neg (not_lt.mpr hmax)]

/-- A converter state in which the pipe `"p1"` has a recorded `q_nominal`
of `0.01`. -/
noncomputable def stateWithPipe : EsdlHeat.ConvState := [("p1", 0.01)]

/-- A demand asset with `power = 100.0` connected to pipe `"p1"`. -/
noncomputable def demandAsset100 : EsdlHeat.Asset :=
  ⟨"d2", "demand2", "HeatingDemand", 100.0, 0.0, 0.0, 0.0, none, [], "p1"⟩

/-- Witness for C6: the demand asset with `power = 100.0` converts
successfully with `Heat_demand.max = 100.0`. -/
theorem converter_positivity_asserts_witness :
    EsdlHeat.convert_demand EsdlHeat.defaultConverter stateWithPipe demandAsset100 80.0 40.0
      = Except.ok (EsdlHeat.HeatComponentType.demand,
          ⟨0.01, 100.0, 80.0, 40.0, EsdlHeat.defaultConverter.rho,
            EsdlHeat.defaultConverter.cp⟩) :=
  (converter_positivity_asserts EsdlHeat.defaultConverter stateWithPipe demandAsset100
    80.0 40.0).2.1 (Or.inr rfl) rfl 0.01 rfl

/-- C8: converting a `Joint` asset returns the `Node` component type with
modifier `n` equal to the total number of connections of its inbound ports
plus those of its outbound ports. -/
theorem convert_node_arity (a : EsdlHeat.Asset) (h : a.asset_type = "Joint") :
    EsdlHeat.convert_node a = Except.ok (EsdlHeat.HeatComponentType.node,
      ⟨((a.ports.filter (fun p => p.kind = EsdlHeat.PortKind.inPort)).map
          EsdlHeat.EsdlPort.connectedTo).sum
        + ((a.ports.filter (fun p => p.kind = EsdlHeat.PortKind.outPort)).map
          EsdlHeat.EsdlPort.connectedTo).sum⟩) := by
  rw [EsdlHeat.convert_node, if_pos h]

/-- A `Joint` asset with two connected inbound ports and one connected
outbound port. -/
def jointAsset : EsdlHeat.Asset :=
  ⟨"j1", "joint1", "Joint", 0, 0, 0, 0, none,
    [⟨EsdlHeat.PortKind.inPort, 1⟩, ⟨EsdlHeat.PortKind.inPort, 1⟩,
      ⟨EsdlHeat.PortKind.outPort, 1⟩], ""⟩

/-- Witness for C8: the 2-in/1-out joint yields `n = 3`. -/
theorem convert_node_arity_witness :
    EsdlHeat.convert_node jointAsset
      = Except.ok (EsdlHeat.HeatComponentType.node, ⟨3⟩) :=
  (convert_node_arity jointAsset rfl).trans (by rfl)

/-- C10: the converter is stateful across assets: `convert_pipe` records
the pipe's derived `q_nominal = area * v_nominal` into the converter state
(keyed by the pipe's id), and the conversion rules for demand, buffer,
pump and source obtain their `Q_nominal` modifier by looking up the
recorded `q_nominal` of the connected pipe.  Converting such an asset
before its connected pipe fails (`KeyError`); converting it after the pipe
yields exactly the pipe's `area * v_nominal` as `Q_nominal` modifier. -/
theorem converter_q_nominal_stateful (c : EsdlHeat.HeatConverter)
    (s : EsdlHeat.ConvState) (p a : EsdlHeat.Asset) (Tsup Tret : ℝ)
    (hp : p.asset_type = "Pipe") (hconn : a.connectedPipe = p.id) :
    (EsdlHeat.convert_pipe c s p Tsup Tret).1
      = EsdlHeat.setQNominal s p.id (Real.pi * p.innerDiameter ^ 2 / 4.0 * c.v_nominal) ∧
    EsdlHeat.getConnectedQNominal (EsdlHeat.convert_pipe c s p Tsup Tret).1 a
      = some (Real.pi * p.innerDiameter ^ 2 / 4.0 * c.v_nominal) ∧
    (EsdlHeat.getConnectedQNominal s a = none →
      (a.asset_type = "HeatingDemand" → 0 < a.power →
        EsdlHeat.convert_demand c s a Tsup Tret
          = Except.error EsdlHeat.PyError.keyError) ∧
      (a.asset_type = "Pump" →
        EsdlHeat.convert_pump c s a Tsup Tret
          = Except.error EsdlHeat.PyError.keyError)) ∧
    ∀ q, EsdlHeat.getConnectedQNominal s a = some q →
      (a.asset_type = "HeatingDemand" → 0 < a.power →
        ∃ m, EsdlHeat.convert_demand c s a Tsup Tret
            = Except.ok (EsdlHeat.HeatComponentType.demand, m) ∧ m.Q_nominal = q) ∧
      (a.asset_type = "HeatStorage" → 0 < a.capacity →
        ∃ m, EsdlHeat.convert_buffer c s a
            = Except.ok (EsdlHeat.HeatComponentType.buffer, m) ∧ m.Q_nominal = q) ∧
      (a.asset_type = "Pump" →
        ∃ m, EsdlHeat.convert_pump c s a Tsup Tret
            = Except.ok (EsdlHeat.HeatComponentType.pump, m) ∧ m.Q_nominal = q) ∧
      (a.asset_type = "GenericProducer" → 0 < a.power →
        ∃ m, EsdlHeat.convert_source c s a Tsup Tret
            = Except.ok (EsdlHeat.HeatComponentType.source, m) ∧ m.Q_nominal = q) := by
  have hstate : (EsdlHeat.convert_pipe c s p Tsup Tret).1
      = EsdlHeat.setQNominal s p.id
          (Real.pi * p.innerDiameter ^ 2 / 4.0 * c.v_nominal) := by
    rw [EsdlHeat.convert_pipe, if_pos hp]
  refine ⟨hstate, ?_, ?_, ?_⟩
  · rw [hstate, EsdlHeat.getConnectedQNominal, hconn, EsdlHeat.setQNominal]
    simp [List.lookup]
  · intro hnone
    constructor
    · intro ht hpow
      rw [EsdlHeat.convert_demand, if_pos (Or.inr ht), if_pos hpow, hnone]
    · intro ht
      rw [EsdlHeat.convert_pump, if_pos ht, hnone]
  · intro q hq
    refine ⟨?_, ?_, ?_, ?_⟩
    · intro ht hpow
      exact ⟨_, by rw [EsdlHeat.convert_demand, if_pos (Or.inr ht), if_pos hpow, hq], rfl⟩
    · intro ht hcap
      exact ⟨_, by rw [EsdlHeat.convert_buffer, if_pos ht, if_pos hcap, hq], rfl⟩
    · intro ht
      exact ⟨_, by rw [EsdlHeat.convert_pump, if_pos ht, hq], rfl⟩
    · intro ht hpow
      have ht4 : a.asset_type = "GasHeater" ∨ a.asset_type = "GenericProducer"
          ∨ a.asset_type = "GeothermalSource" ∨ a.asset_type = "ResidualHeatSource" :=
        Or.inr (Or.inl ht)
      exact ⟨_, by rw [EsdlHeat.convert_source, if_pos ht4, if_pos hpow, hq], rfl⟩

/-- A pipe asset with inner diameter `0.1`, used to witness the stateful
`q_nominal` hand-off. -/
noncomputable def pipeAsset : EsdlHeat.Asset :=
  ⟨"p1", "pipe1", "Pipe", 0, 0, 0.1, 10.0, none, [], ""⟩

/-- Witness for C10 at the default converter: converting the pipe first
records `q_nominal = pi * 0.1^2 / 4 * 1.0`, which the connected demand
asset then receives as its `Q_nominal` modifier. -/
theorem converter_q_nominal_stateful_witness :
    EsdlHeat.getConnectedQNominal
        (EsdlHeat.convert_pipe EsdlHeat.defaultConverter [] pipeAsset 80.0 40.0).1
        demandAsset100
      = some (Real.pi * pipeAsset.innerDiameter ^ 2 / 4.0
          * EsdlHeat.defaultConverter.v_nominal) :=
  (converter_q_nominal_stateful EsdlHeat.defaultConverter [] pipeAsset demandAsset100
    80.0 40.0 rfl rfl).2.1

end Mesido
